import Mathlib

/-!
# Verification of the `hasher` library

A shallow embedding of the `hasher` Go package: a facade (`Hash`) holding one
active algorithm adapter (`Hasher`), generic width-wrapper adapter shapes, the
per-algorithm engines (MD5, SHA-1/256/512, CRC32, Adler-32, the FNV family,
xxHash64, MurmurHash3-128, Whirlpool, BLAKE3-512, and the perceptual image
hash), the configuration options, and the error values.  Machine words are
`Nat` reduced with explicit `% 2^w`; byte strings are `List Nat`; Go's
`(value, error)` returns are pairs of options.
-/

set_option maxRecDepth 4000

/-- Byte sequences: Go `[]byte` values (inputs and digests). -/
abbrev Bytes := List Nat

/-- The error values the library can return.  `unsupportedInputType` carries
the rejected value's runtime type name (Go wraps `ErrUnsupportedInputType`
with `%T`); `ioError` stands for a propagated stream-read or engine-write
error; `decodeError` for an image-decode failure. -/
inductive GoError where
  | unsupportedInputType (typeName : String)
  | hashMismatch
  | phashNotSupportedString
  | ioError (msg : String)
  | decodeError (msg : String)
deriving DecidableEq, Repr

/-- An `io.Reader`, modelled by the byte contents it yields and an optional
read error that `io.Copy` (or `image.Decode`) hits after the contents. -/
structure ByteStream where
  bytes : Bytes
  readErr : Option String
deriving DecidableEq, Repr

/-- A Go `([]byte, error)` return: digest (nil = `none`) paired with error. -/
abbrev GenResult := Option Bytes × Option GoError

/-- The `Hasher` interface (interface.go): the four-operation adapter
contract every algorithm implements. -/
structure Hasher where
  GenHashFromString : Bytes → GenResult
  GenHashFromIOReader : ByteStream → GenResult
  CmpHashAndString : Bytes → Bytes → Option GoError
  CmpHashAndIOReader : Bytes → ByteStream → Option GoError

/-- The shared compare body (`CmpHashAndString` / `CmpHashAndIOReader` in
every adapter): compute the input's digest, propagate a generation error
unchanged, otherwise `bytes.Equal` the supplied hash against the computed
one (`bytes.Equal` treats a nil slice as empty). -/
def cmpVia {α : Type} (gen : α → GenResult) (hashA : Bytes) (x : α) : Option GoError :=
  match gen x with
  | (_, some err) => some err
  | (hashB, none) => if hashA = hashB.getD [] then none else some .hashMismatch

/-- A native incremental hash engine (`hash.Hash`): modelled by the digest it
produces over the whole written input, plus the possibility of a `Write`
failure.  The standard-library engines document that `Write` never returns
an error, so every built-in engine below has `writeErr := fun _ => none`;
the field keeps the adapters' source-level error check meaningful. -/
structure EngineSpec where
  writeErr : Bytes → Option String
  digest : Bytes → Bytes

/-- `GenHashFromString` of the generic adapter: fresh engine, write the
string's bytes (checking the write error as the source does), `Sum`. -/
def genFromStringOf (e : EngineSpec) (s : Bytes) : GenResult :=
  match e.writeErr s with
  | some msg => (none, some (.ioError msg))
  | none => (some (e.digest s), none)

/-- `GenHashFromIOReader` of the generic adapter: fresh engine, `io.Copy`
the stream into it (a read error is returned and the partial engine state
discarded), `Sum`. -/
def genFromIOReaderOf (e : EngineSpec) (r : ByteStream) : GenResult :=
  match r.readErr with
  | some msg => (none, some (.ioError msg))
  | none =>
    match e.writeErr r.bytes with
    | some msg => (none, some (.ioError msg))
    | none => (some (e.digest r.bytes), none)

/-- The generic incremental-hash adapter (`hasher` in the source, identical
in body to `md5sumHasher`, `shaHasher`, `blake3Hasher` and the FNV adapters):
each operation builds a fresh engine from the stored constructor. -/
def hasherOf (e : EngineSpec) : Hasher where
  GenHashFromString := genFromStringOf e
  GenHashFromIOReader := genFromIOReaderOf e
  CmpHashAndString := fun hashA s => cmpVia (genFromStringOf e) hashA s
  CmpHashAndIOReader := fun hashA r => cmpVia (genFromIOReaderOf e) hashA r

/-- Big-endian byte encoding of a value in `n` bytes (`Sum` of `hash.Hash32`
and `hash.Hash64` engines appends the accumulator big-endian). -/
def beBytes (n v : Nat) : Bytes :=
  (List.range n).map (fun i => (v >>> (8 * (n - 1 - i))) % 256)

/-- Little-endian byte encoding of a value in `n` bytes. -/
def leBytes (n v : Nat) : Bytes :=
  (List.range n).map (fun i => (v >>> (8 * i)) % 256)

/-- A pure engine: a digest function whose writes never fail (the documented
behaviour of every standard-library engine wrapped here). -/
def pureEngine (digest : Bytes → Bytes) : EngineSpec :=
  { writeErr := fun _ => none, digest := digest }

/-- The `hasher32` wrapper shape: wraps a `hash.Hash32` constructor, whose
`Sum` appends the 32-bit accumulator as 4 big-endian bytes. -/
def hasher32Of (sum32 : Bytes → Nat) : Hasher :=
  hasherOf (pureEngine (fun bs => beBytes 4 (sum32 bs)))

/-- The `hasher64` wrapper shape: wraps a `hash.Hash64` constructor, whose
`Sum` appends the 64-bit accumulator as 8 big-endian bytes. -/
def hasher64Of (sum64 : Bytes → Nat) : Hasher :=
  hasherOf (pureEngine (fun bs => beBytes 8 (sum64 bs)))

/-! ## MD5 (crypto/md5, wrapped by `md5sumHasher`) -/

/-- 2^32, the 32-bit word modulus. -/
def M32 : Nat := 4294967296

/-- 2^64, the 64-bit word modulus. -/
def M64 : Nat := 18446744073709551616

/-- Rotate a 32-bit word left by `n`. -/
def rotl32 (x n : Nat) : Nat := ((x <<< n) ||| (x >>> (32 - n))) % M32

/-- MD5 round constants `K[i] = ⌊|sin (i+1)| · 2^32⌋`. -/
def md5K : List Nat := [
  3614090360, 3905402710, 606105819, 3250441966, 4118548399, 1200080426, 2821735955, 4249261313,
  1770035416, 2336552879, 4294925233, 2304563134, 1804603682, 4254626195, 2792965006, 1236535329,
  4129170786, 3225465664, 643717713, 3921069994, 3593408605, 38016083, 3634488961, 3889429448,
  568446438, 3275163606, 4107603335, 1163531501, 2850285829, 4243563512, 1735328473, 2368359562,
  4294588738, 2272392833, 1839030562, 4259657740, 2763975236, 1272893353, 4139469664, 3200236656,
  681279174, 3936430074, 3572445317, 76029189, 3654602809, 3873151461, 530742520, 3299628645,
  4096336452, 1126891415, 2878612391, 4237533241, 1700485571, 2399980690, 4293915773, 2240044497,
  1873313359, 4264355552, 2734768916, 1309151649, 4149444226, 3174756917, 718787259, 3951481745
]

/-- MD5 per-round left-rotation amounts. -/
def md5S : List Nat := [
  7, 12, 17, 22, 7, 12, 17, 22, 7, 12, 17, 22, 7, 12, 17, 22,
  5, 9, 14, 20, 5, 9, 14, 20, 5, 9, 14, 20, 5, 9, 14, 20,
  4, 11, 16, 23, 4, 11, 16, 23, 4, 11, 16, 23, 4, 11, 16, 23,
  6, 10, 15, 21, 6, 10, 15, 21, 6, 10, 15, 21, 6, 10, 15, 21
]

/-- Read the `i`-th little-endian 32-bit word of a block. -/
def leWord32 (l : Bytes) (i : Nat) : Nat :=
  l.getD (4*i) 0 + 256 * l.getD (4*i+1) 0 + 65536 * l.getD (4*i+2) 0 +
    16777216 * l.getD (4*i+3) 0

/-- Merkle–Damgård padding: `0x80`, zeros to 56 mod 64, then the bit length
as 8 little-endian bytes (MD5's byte order). -/
def md5pad (msg : Bytes) : Bytes :=
  let z := (64 - ((msg.length + 9) % 64)) % 64
  msg ++ [128] ++ List.replicate z 0 ++ leBytes 8 ((8 * msg.length) % M64)

/-- One MD5 step (round `i`) on state `(a, b, c, d)`. -/
def md5Step (block : Bytes) (st : Nat × Nat × Nat × Nat) (i : Nat) :
    Nat × Nat × Nat × Nat :=
  let a := st.1; let b := st.2.1; let c := st.2.2.1; let d := st.2.2.2
  let f :=
    if i < 16 then (b &&& c) ||| ((b ^^^ 4294967295) &&& d)
    else if i < 32 then (d &&& b) ||| ((d ^^^ 4294967295) &&& c)
    else if i < 48 then b ^^^ c ^^^ d
    else c ^^^ (b ||| (d ^^^ 4294967295))
  let g :=
    if i < 16 then i
    else if i < 32 then (5*i + 1) % 16
    else if i < 48 then (3*i + 5) % 16
    else (7*i) % 16
  let tmp := (a + f + md5K.getD i 0 + leWord32 block g) % M32
  (d, (b + rotl32 tmp (md5S.getD i 0)) % M32, b, c)

/-- One MD5 block compression. -/
def md5Block (st : Nat × Nat × Nat × Nat) (block : Bytes) : Nat × Nat × Nat × Nat :=
  let r := (List.range 64).foldl (md5Step block) st
  ((st.1 + r.1) % M32, (st.2.1 + r.2.1) % M32,
   (st.2.2.1 + r.2.2.1) % M32, (st.2.2.2 + r.2.2.2) % M32)

/-- The MD5 digest of a byte sequence: 16 bytes, words little-endian. -/
def md5Digest (msg : Bytes) : Bytes :=
  let p := md5pad msg
  let fin := (List.range (p.length / 64)).foldl
    (fun st i => md5Block st ((p.drop (64*i)).take 64))
    (1732584193, 4023233417, 2562383102, 271733878)
  leBytes 4 fin.1 ++ leBytes 4 fin.2.1 ++ leBytes 4 fin.2.2.1 ++ leBytes 4 fin.2.2.2

/-- The MD5 adapter (`md5sumHasher`): its four methods coincide with the
generic adapter body instantiated at `md5.New`. -/
def md5sumHasher : Hasher := hasherOf (pureEngine md5Digest)

/-- The UTF-8 bytes of `"test"`. -/
def testBytes : Bytes := [116, 101, 115, 116]

/-! ## SHA-1, SHA-256, SHA-512 (crypto/sha1, sha256, sha512 via `shaHasher`) -/

/-- Rotate a 32-bit word right by `n`. -/
def rotr32 (x n : Nat) : Nat := ((x >>> n) ||| (x <<< (32 - n))) % M32

/-- Rotate a 64-bit word right by `n`. -/
def rotr64 (x n : Nat) : Nat := ((x >>> n) ||| (x <<< (64 - n))) % M64

/-- Read the `i`-th big-endian 32-bit word of a block. -/
def beWord32 (l : Bytes) (i : Nat) : Nat :=
  16777216 * l.getD (4*i) 0 + 65536 * l.getD (4*i+1) 0 + 256 * l.getD (4*i+2) 0 +
    l.getD (4*i+3) 0

/-- Read the `i`-th big-endian 64-bit word of a block. -/
def beWord64 (l : Bytes) (i : Nat) : Nat :=
  (List.range 8).foldl (fun acc k => 256 * acc + l.getD (8*i+k) 0) 0

/-- Merkle–Damgård padding with a big-endian 8-byte bit length (SHA-1/256). -/
def shaPad (msg : Bytes) : Bytes :=
  let z := (64 - ((msg.length + 9) % 64)) % 64
  msg ++ [128] ++ List.replicate z 0 ++ beBytes 8 ((8 * msg.length) % M64)

/-- SHA-1 message schedule: 80 words. -/
def sha1Schedule (block : Bytes) : List Nat :=
  (List.range 80).foldl (fun w i =>
    w ++ [if i < 16 then beWord32 block i
          else rotl32 (w.getD (i-3) 0 ^^^ w.getD (i-8) 0 ^^^ w.getD (i-14) 0 ^^^
                       w.getD (i-16) 0) 1]) []

/-- One SHA-1 block compression. -/
def sha1Block (st : List Nat) (block : Bytes) : List Nat :=
  let w := sha1Schedule block
  let r := (List.range 80).foldl (fun s i =>
    let a := s.getD 0 0; let b := s.getD 1 0; let c := s.getD 2 0
    let d := s.getD 3 0; let e := s.getD 4 0
    let f :=
      if i < 20 then (b &&& c) ||| ((b ^^^ 4294967295) &&& d)
      else if i < 40 then b ^^^ c ^^^ d
      else if i < 60 then (b &&& c) ||| (b &&& d) ||| (c &&& d)
      else b ^^^ c ^^^ d
    let k :=
      if i < 20 then 1518500249 else if i < 40 then 1859775393
      else if i < 60 then 2400959708 else 3395469782
    let t := (rotl32 a 5 + f + e + k + w.getD i 0) % M32
    [t, a, rotl32 b 30, c, d]) st
  (List.range 5).map (fun i => (st.getD i 0 + r.getD i 0) % M32)

/-- The SHA-1 digest: 20 bytes, words big-endian. -/
def sha1Digest (msg : Bytes) : Bytes :=
  let p := shaPad msg
  let fin := (List.range (p.length / 64)).foldl
    (fun st i => sha1Block st ((p.drop (64*i)).take 64))
    [1732584193, 4023233417, 2562383102, 271733878, 3285377520]
  (fin.map (beBytes 4)).flatten

/-- SHA-256 round constants (fractional cube roots of the first 64 primes). -/
def sha256K : List Nat := [
  1116352408, 1899447441, 3049323471, 3921009573, 961987163, 1508970993, 2453635748, 2870763221,
  3624381080, 310598401, 607225278, 1426881987, 1925078388, 2162078206, 2614888103, 3248222580,
  3835390401, 4022224774, 264347078, 604807628, 770255983, 1249150122, 1555081692, 1996064986,
  2554220882, 2821834349, 2952996808, 3210313671, 3336571891, 3584528711, 113926993, 338241895,
  666307205, 773529912, 1294757372, 1396182291, 1695183700, 1986661051, 2177026350, 2456956037,
  2730485921, 2820302411, 3259730800, 3345764771, 3516065817, 3600352804, 4094571909, 275423344,
  430227734, 506948616, 659060556, 883997877, 958139571, 1322822218, 1537002063, 1747873779,
  1955562222, 2024104815, 2227730452, 2361852424, 2428436474, 2756734187, 3204031479, 3329325298
]

/-- SHA-256 message schedule: 64 words. -/
def sha256Schedule (block : Bytes) : List Nat :=
  (List.range 64).foldl (fun w i =>
    w ++ [if i < 16 then beWord32 block i
          else
            let s0 := rotr32 (w.getD (i-15) 0) 7 ^^^ rotr32 (w.getD (i-15) 0) 18 ^^^
                      (w.getD (i-15) 0 >>> 3)
            let s1 := rotr32 (w.getD (i-2) 0) 17 ^^^ rotr32 (w.getD (i-2) 0) 19 ^^^
                      (w.getD (i-2) 0 >>> 10)
            (w.getD (i-16) 0 + s0 + w.getD (i-7) 0 + s1) % M32]) []

/-- One SHA-256 block compression. -/
def sha256Block (st : List Nat) (block : Bytes) : List Nat :=
  let w := sha256Schedule block
  let r := (List.range 64).foldl (fun s i =>
    let a := s.getD 0 0; let b := s.getD 1 0; let c := s.getD 2 0; let d := s.getD 3 0
    let e := s.getD 4 0; let f := s.getD 5 0; let g := s.getD 6 0; let h := s.getD 7 0
    let S1 := rotr32 e 6 ^^^ rotr32 e 11 ^^^ rotr32 e 25
    let ch := (e &&& f) ^^^ ((e ^^^ 4294967295) &&& g)
    let t1 := (h + S1 + ch + sha256K.getD i 0 + w.getD i 0) % M32
    let S0 := rotr32 a 2 ^^^ rotr32 a 13 ^^^ rotr32 a 22
    let mj := (a &&& b) ^^^ (a &&& c) ^^^ (b &&& c)
    let t2 := (S0 + mj) % M32
    [(t1 + t2) % M32, a, b, c, (d + t1) % M32, e, f, g]) st
  (List.range 8).map (fun i => (st.getD i 0 + r.getD i 0) % M32)

/-- The SHA-256 digest: 32 bytes, words big-endian. -/
def sha256Digest (msg : Bytes) : Bytes :=
  let p := shaPad msg
  let fin := (List.range (p.length / 64)).foldl
    (fun st i => sha256Block st ((p.drop (64*i)).take 64))
    [1779033703, 3144134277, 1013904242, 2773480762,
     1359893119, 2600822924, 528734635, 1541459225]
  (fin.map (beBytes 4)).flatten

/-- SHA-512 round constants (fractional cube roots of the first 80 primes). -/
def sha512K : List Nat := [
  4794697086780616226, 8158064640168781261, 13096744586834688815, 16840607885511220156,
  4131703408338449720, 6480981068601479193, 10538285296894168987, 12329834152419229976,
  15566598209576043074, 1334009975649890238, 2608012711638119052, 6128411473006802146,
  8268148722764581231, 9286055187155687089, 11230858885718282805, 13951009754708518548,
  16472876342353939154, 17275323862435702243, 1135362057144423861, 2597628984639134821,
  3308224258029322869, 5365058923640841347, 6679025012923562964, 8573033837759648693,
  10970295158949994411, 12119686244451234320, 12683024718118986047, 13788192230050041572,
  14330467153632333762, 15395433587784984357, 489312712824947311, 1452737877330783856,
  2861767655752347644, 3322285676063803686, 5560940570517711597, 5996557281743188959,
  7280758554555802590, 8532644243296465576, 9350256976987008742, 10552545826968843579,
  11727347734174303076, 12113106623233404929, 14000437183269869457, 14369950271660146224,
  15101387698204529176, 15463397548674623760, 17586052441742319658, 1182934255886127544,
  1847814050463011016, 2177327727835720531, 2830643537854262169, 3796741975233480872,
  4115178125766777443, 5681478168544905931, 6601373596472566643, 7507060721942968483,
  8399075790359081724, 8693463985226723168, 9568029438360202098, 10144078919501101548,
  10430055236837252648, 11840083180663258601, 13761210420658862357, 14299343276471374635,
  14566680578165727644, 15097957966210449927, 16922976911328602910, 17689382322260857208,
  500013540394364858, 748580250866718886, 1242879168328830382, 1977374033974150939,
  2944078676154940804, 3659926193048069267, 4368137639120453308, 4836135668995329356,
  5532061633213252278, 6448918945643986474, 6902733635092675308, 7801388544844847127
]

/-- SHA-512 padding: `0x80`, zeros to 112 mod 128, 16-byte big-endian bit length. -/
def sha512Pad (msg : Bytes) : Bytes :=
  let z := (128 - ((msg.length + 17) % 128)) % 128
  msg ++ [128] ++ List.replicate z 0 ++ beBytes 16 (8 * msg.length)

/-- SHA-512 message schedule: 80 words. -/
def sha512Schedule (block : Bytes) : List Nat :=
  (List.range 80).foldl (fun w i =>
    w ++ [if i < 16 then beWord64 block i
          else
            let s0 := rotr64 (w.getD (i-15) 0) 1 ^^^ rotr64 (w.getD (i-15) 0) 8 ^^^
                      (w.getD (i-15) 0 >>> 7)
            let s1 := rotr64 (w.getD (i-2) 0) 19 ^^^ rotr64 (w.getD (i-2) 0) 61 ^^^
                      (w.getD (i-2) 0 >>> 6)
            (w.getD (i-16) 0 + s0 + w.getD (i-7) 0 + s1) % M64]) []

/-- One SHA-512 block compression. -/
def sha512Block (st : List Nat) (block : Bytes) : List Nat :=
  let w := sha512Schedule block
  let notM (x : Nat) : Nat := x ^^^ (M64 - 1)
  let r := (List.range 80).foldl (fun s i =>
    let a := s.getD 0 0; let b := s.getD 1 0; let c := s.getD 2 0; let d := s.getD 3 0
    let e := s.getD 4 0; let f := s.getD 5 0; let g := s.getD 6 0; let h := s.getD 7 0
    let S1 := rotr64 e 14 ^^^ rotr64 e 18 ^^^ rotr64 e 41
    let ch := (e &&& f) ^^^ (notM e &&& g)
    let t1 := (h + S1 + ch + sha512K.getD i 0 + w.getD i 0) % M64
    let S0 := rotr64 a 28 ^^^ rotr64 a 34 ^^^ rotr64 a 39
    let mj := (a &&& b) ^^^ (a &&& c) ^^^ (b &&& c)
    let t2 := (S0 + mj) % M64
    [(t1 + t2) % M64, a, b, c, (d + t1) % M64, e, f, g]) st
  (List.range 8).map (fun i => (st.getD i 0 + r.getD i 0) % M64)

/-- The SHA-512 digest: 64 bytes, words big-endian. -/
def sha512Digest (msg : Bytes) : Bytes :=
  let p := sha512Pad msg
  let fin := (List.range (p.length / 128)).foldl
    (fun st i => sha512Block st ((p.drop (128*i)).take 128))
    [7640891576956012808, 13503953896175478587, 4354685564936845355, 11912009170470909681,
     5840696475078001361, 11170449401992604703, 2270897969802886507, 6620516959819538809]
  (fin.map (beBytes 8)).flatten

/-- The SHA-1 adapter (`newSHA1Hasher`). -/
def newSHA1Hasher : Hasher := hasherOf (pureEngine sha1Digest)

/-- The SHA-256 adapter (`newSHA256Hasher`). -/
def newSHA256Hasher : Hasher := hasherOf (pureEngine sha256Digest)

/-- The SHA-512 adapter (`newSHA512Hasher`). -/
def newSHA512Hasher : Hasher := hasherOf (pureEngine sha512Digest)

/-! ## CRC32 (hash/crc32, IEEE), Adler-32 (hash/adler32), FNV (hash/fnv) -/

/-- CRC-32 IEEE, reflected form (`crc32.NewIEEE`): 32-bit accumulator. -/
def crc32IEEE (msg : Bytes) : Nat :=
  let step := fun (crc : Nat) (b : Nat) =>
    (List.range 8).foldl
      (fun c _ => if c % 2 = 1 then (c >>> 1) ^^^ 3988292384 else c >>> 1)
      (crc ^^^ (b % 256))
  (msg.foldl step 4294967295) ^^^ 4294967295

/-- Adler-32 (`adler32.New`): two 16-bit sums mod 65521, high sum first. -/
def adler32Sum (msg : Bytes) : Nat :=
  let p := msg.foldl (fun (ab : Nat × Nat) b =>
    let a := (ab.1 + b % 256) % 65521
    (a, (ab.2 + a) % 65521)) (1, 0)
  65536 * p.2 + p.1

/-- FNV-1 32-bit (`fnv.New32`). -/
def fnv32Sum (msg : Bytes) : Nat :=
  msg.foldl (fun h b => (h * 16777619) % M32 ^^^ (b % 256)) 2166136261

/-- FNV-1a 32-bit (`fnv.New32a`). -/
def fnv32aSum (msg : Bytes) : Nat :=
  msg.foldl (fun h b => ((h ^^^ (b % 256)) * 16777619) % M32) 2166136261

/-- FNV-1 64-bit (`fnv.New64`). -/
def fnv64Sum (msg : Bytes) : Nat :=
  msg.foldl (fun h b => (h * 1099511628211) % M64 ^^^ (b % 256)) 14695981039346656037

/-- FNV-1a 64-bit (`fnv.New64a`). -/
def fnv64aSum (msg : Bytes) : Nat :=
  msg.foldl (fun h b => ((h ^^^ (b % 256)) * 1099511628211) % M64) 14695981039346656037

/-- 2^128, the 128-bit modulus. -/
def M128 : Nat := 340282366920938463463374607431768211456

/-- FNV-1 128-bit (`fnv.New128`); `Sum` appends 16 big-endian bytes. -/
def fnv128Digest (msg : Bytes) : Bytes :=
  beBytes 16 (msg.foldl
    (fun h b => (h * 309485009821345068724781371) % M128 ^^^ (b % 256))
    144066263297769815596495629667062367629)

/-- FNV-1a 128-bit (`fnv.New128a`); `Sum` appends 16 big-endian bytes. -/
def fnv128aDigest (msg : Bytes) : Bytes :=
  beBytes 16 (msg.foldl
    (fun h b => ((h ^^^ (b % 256)) * 309485009821345068724781371) % M128)
    144066263297769815596495629667062367629)

/-- The CRC32 adapter (`newCRC32Hasher`, a `hasher32` over `crc32.NewIEEE`). -/
def newCRC32Hasher : Hasher := hasher32Of crc32IEEE

/-- The Adler-32 adapter (`newAdler32Hasher`, a `hasher32` over `adler32.New`). -/
def newAdler32Hasher : Hasher := hasher32Of adler32Sum

/-- The FNV-32 adapter (`newFnv32Hasher`). -/
def newFnv32Hasher : Hasher := hasher32Of fnv32Sum

/-- The FNV-32a adapter (`newFnv32aHasher`). -/
def newFnv32aHasher : Hasher := hasher32Of fnv32aSum

/-- The FNV-64 adapter (`newFnv64Hasher`). -/
def newFnv64Hasher : Hasher := hasher64Of fnv64Sum

/-- The FNV-64a adapter (`newFnv64aHasher`). -/
def newFnv64aHasher : Hasher := hasher64Of fnv64aSum

/-- The FNV-128 adapter (`newFnv128Hasher`, a `hasher` over `fnv.New128`). -/
def newFnv128Hasher : Hasher := hasherOf (pureEngine fnv128Digest)

/-- The FNV-128a adapter (`newFnv128aHasher`). -/
def newFnv128aHasher : Hasher := hasherOf (pureEngine fnv128aDigest)

/-! ## xxHash64 (github.com/cespare/xxhash) -/

/-- Rotate a 64-bit word left by `n`. -/
def rotl64 (x n : Nat) : Nat := ((x <<< n) ||| (x >>> (64 - n))) % M64

/-- Read a `k`-byte little-endian lane starting at offset `off`. -/
def leLane (msg : Bytes) (off k : Nat) : Nat :=
  (List.range k).foldl (fun acc i => acc + (msg.getD (off + i) 0 % 256) <<< (8 * i)) 0

/-- xxHash64 with seed 0: the 64-bit accumulator of `xxhash.New`. -/
def xxh64Sum (msg : Bytes) : Nat :=
  let P1 := 11400714785074694791
  let P2 := 14029467366897019727
  let P3 := 1609587929392839161
  let P4 := 9650029242287828579
  let P5 := 2870177450012600261
  let n := msg.length
  let xxRound := fun (acc lane : Nat) => (rotl64 ((acc + lane * P2) % M64) 31 * P1) % M64
  let nBig := n / 32
  let hInit :=
    if n < 32 then P5
    else
      let vs := (List.range nBig).foldl (fun (v : Nat × Nat × Nat × Nat) i =>
        (xxRound v.1 (leLane msg (32*i) 8), xxRound v.2.1 (leLane msg (32*i+8) 8),
         xxRound v.2.2.1 (leLane msg (32*i+16) 8), xxRound v.2.2.2 (leLane msg (32*i+24) 8)))
        ((P1 + P2) % M64, P2, 0, (M64 - P1) % M64)
      let merge := fun (h v : Nat) => ((h ^^^ xxRound 0 v) * P1 + P4) % M64
      merge (merge (merge (merge
        ((rotl64 vs.1 1 + rotl64 vs.2.1 7 + rotl64 vs.2.2.1 12 + rotl64 vs.2.2.2 18) % M64)
        vs.1) vs.2.1) vs.2.2.1) vs.2.2.2
  let i0 := 32 * nBig
  let h0 := (hInit + n) % M64
  let n8 := (n - i0) / 8
  let h1 := (List.range n8).foldl (fun h j =>
    (rotl64 (h ^^^ xxRound 0 (leLane msg (i0 + 8*j) 8)) 27 * P1 + P4) % M64) h0
  let i1 := i0 + 8 * n8
  let h2 :=
    if i1 + 4 ≤ n then
      (rotl64 (h1 ^^^ (leLane msg i1 4 * P1) % M64) 23 * P2 + P3) % M64
    else h1
  let i2 := if i1 + 4 ≤ n then i1 + 4 else i1
  let h3 := (List.range (n - i2)).foldl (fun h j =>
    (rotl64 (h ^^^ ((msg.getD (i2 + j) 0 % 256) * P5) % M64) 11 * P1) % M64) h2
  let h4 := ((h3 ^^^ (h3 >>> 33)) * P2) % M64
  let h5 := ((h4 ^^^ (h4 >>> 29)) * P3) % M64
  h5 ^^^ (h5 >>> 32)

/-- The xxHash adapter (`newXXHasher`, a `hasher64` over `xxhash.New`). -/
def newXXHasher : Hasher := hasher64Of xxh64Sum

/-! ## MurmurHash3 x64-128 (github.com/reusee/mmh3) -/

/-- The 64-bit finalization mix of MurmurHash3. -/
def mmh3Fmix (x0 : Nat) : Nat :=
  let x1 := ((x0 ^^^ (x0 >>> 33)) * 18397679294719823053) % M64
  let x2 := ((x1 ^^^ (x1 >>> 33)) * 14181476777654086739) % M64
  x2 ^^^ (x2 >>> 33)

/-- MurmurHash3 x64-128 with seed 0 (`mmh3.New128`): 16 bytes, the two
64-bit halves little-endian. -/
def mmh3Digest (msg : Bytes) : Bytes :=
  let c1 := 9782798678568883157
  let c2 := 5545529020109919103
  let n := msg.length
  let nb := n / 16
  let mixK1 := fun (k : Nat) => (rotl64 ((k * c1) % M64) 31 * c2) % M64
  let mixK2 := fun (k : Nat) => (rotl64 ((k * c2) % M64) 33 * c1) % M64
  let hs := (List.range nb).foldl (fun (h : Nat × Nat) i =>
    let h1 := (h.1 ^^^ mixK1 (leLane msg (16*i) 8))
    let h1 := (rotl64 h1 27 + h.2) % M64
    let h1 := (h1 * 5 + 1390208809) % M64
    let h2 := (h.2 ^^^ mixK2 (leLane msg (16*i+8) 8))
    let h2 := (rotl64 h2 31 + h1) % M64
    let h2 := (h2 * 5 + 944331445) % M64
    (h1, h2)) (0, 0)
  let t := n - 16 * nb
  let h2a := if t > 8 then hs.2 ^^^ mixK2 (leLane msg (16*nb+8) (t - 8)) else hs.2
  let h1a := if t > 0 then hs.1 ^^^ mixK1 (leLane msg (16*nb) (min t 8)) else hs.1
  let h1b := h1a ^^^ n
  let h2b := h2a ^^^ n
  let h1c := (h1b + h2b) % M64
  let h2c := (h2b + h1c) % M64
  let h1d := mmh3Fmix h1c
  let h2d := mmh3Fmix h2c
  let h1e := (h1d + h2d) % M64
  let h2e := (h2d + h1e) % M64
  leBytes 8 h1e ++ leBytes 8 h2e

/-- The MurmurHash3 adapter (`newMmh3Hasher`, a `hasher` over `mmh3.New128`). -/
def newMmh3Hasher : Hasher := hasherOf (pureEngine mmh3Digest)

/-! ## Whirlpool (github.com/jzelinskie/whirlpool) -/

/-- The Whirlpool S-box (built from the standard E, E⁻¹ and R mini-boxes). -/
def wpS : List Nat := [
  24, 35, 198, 232, 135, 184, 1, 79, 54, 166, 210, 245, 121, 111, 145, 82,
  96, 188, 155, 142, 163, 12, 123, 53, 29, 224, 215, 194, 46, 75, 254, 87,
  21, 119, 55, 229, 159, 240, 74, 218, 88, 201, 41, 10, 177, 160, 107, 133,
  189, 93, 16, 244, 203, 62, 5, 103, 228, 39, 65, 139, 167, 125, 149, 216,
  251, 238, 124, 102, 221, 23, 71, 158, 202, 45, 191, 7, 173, 90, 131, 51,
  99, 2, 170, 113, 200, 25, 73, 217, 242, 227, 91, 136, 154, 38, 50, 176,
  233, 15, 213, 128, 190, 205, 52, 72, 255, 122, 144, 95, 32, 104, 26, 174,
  180, 84, 147, 34, 100, 241, 115, 18, 64, 8, 195, 236, 219, 161, 141, 61,
  151, 0, 207, 43, 118, 130, 214, 27, 181, 175, 106, 80, 69, 243, 48, 239,
  63, 85, 162, 234, 101, 186, 47, 192, 222, 28, 253, 77, 146, 117, 6, 138,
  178, 230, 14, 31, 98, 212, 168, 150, 249, 197, 37, 89, 132, 114, 57, 76,
  94, 120, 56, 140, 209, 165, 226, 97, 179, 33, 156, 30, 67, 199, 252, 4,
  81, 153, 109, 13, 250, 223, 126, 36, 59, 171, 206, 17, 143, 78, 183, 235,
  60, 129, 148, 247, 185, 19, 44, 211, 231, 110, 196, 3, 86, 68, 127, 169,
  42, 187, 193, 83, 220, 11, 157, 108, 49, 116, 246, 70, 172, 137, 20, 225,
  22, 58, 105, 9, 112, 182, 208, 237, 204, 66, 152, 164, 40, 92, 248, 134
]

/-- Multiplication in GF(2^8) modulo x^8 + x^4 + x^3 + x^2 + 1 (0x11D). -/
def gmul (a b : Nat) : Nat :=
  ((List.range 8).foldl (fun (s : Nat × Nat × Nat) _ =>
    let p := if s.2.2 % 2 = 1 then s.1 ^^^ s.2.1 else s.1
    let a2 := ((s.2.1 <<< 1) % 256) ^^^ (if s.2.1 ≥ 128 then 29 else 0)
    (p, a2, s.2.2 >>> 1)) (0, a % 256, b % 256)).1

/-- The circulant row of the Whirlpool diffusion matrix. -/
def wpC : List Nat := [1, 1, 4, 1, 8, 5, 2, 9]

/-- XOR two 64-byte states entrywise. -/
def xorState (a b : List Nat) : List Nat := a.zipWith (fun x y => x ^^^ y) b

/-- Whirlpool SubBytes over the 8×8 byte state (stored row-major). -/
def wpSub (st : List Nat) : List Nat := st.map (fun x => wpS.getD (x % 256) 0)

/-- Whirlpool ShiftColumns: column `j` is rotated down by `j`. -/
def wpShift (st : List Nat) : List Nat :=
  (List.range 64).map (fun idx =>
    st.getD (8 * ((idx / 8 + 8 - idx % 8) % 8) + idx % 8) 0)

/-- Whirlpool MixRows: multiply each row by the circulant matrix. -/
def wpMix (st : List Nat) : List Nat :=
  (List.range 64).map (fun idx =>
    (List.range 8).foldl (fun acc k =>
      acc ^^^ gmul (st.getD (8 * (idx / 8) + k) 0) (wpC.getD ((idx % 8 + 8 - k) % 8) 0)) 0)

/-- Round constant `r`: S-box bytes in row 0, zero elsewhere. -/
def wpRC (r : Nat) : List Nat :=
  (List.range 64).map (fun idx => if idx < 8 then wpS.getD (8 * (r - 1) + idx) 0 else 0)

/-- One block of the Whirlpool compression (the W cipher in Miyaguchi–Preneel
mode): 10 rounds over state and key schedule, then feed-forward. -/
def wpBlock (H m : List Nat) : List Nat :=
  let fin := (List.range 10).foldl (fun (p : List Nat × List Nat) r =>
    let K := xorState (wpMix (wpShift (wpSub p.1))) (wpRC (r + 1))
    (K, xorState (wpMix (wpShift (wpSub p.2))) K)) (H, xorState m H)
  xorState (xorState H fin.2) m

/-- The Whirlpool digest: 64 bytes.  Padding is `0x80`, zeros to 32 mod 64,
then the bit length as 32 big-endian bytes. -/
def whirlpoolDigest (msg : Bytes) : Bytes :=
  let z := (64 - ((msg.length + 33) % 64)) % 64
  let p := msg ++ [128] ++ List.replicate z 0 ++ beBytes 32 (8 * msg.length)
  (List.range (p.length / 64)).foldl
    (fun H i => wpBlock H ((p.drop (64*i)).take 64)) (List.replicate 64 0)

/-- The Whirlpool adapter (`newWhirlpoolHasher`, a `hasher` over
`whirlpool.New`). -/
def newWhirlpoolHasher : Hasher := hasherOf (pureEngine whirlpoolDigest)

/-! ## BLAKE3 with 64-byte output (lukechampine.com/blake3) -/

/-- The BLAKE3 initialization vector (the SHA-256 IV words). -/
def b3IV : List Nat :=
  [1779033703, 3144134277, 1013904242, 2773480762,
   1359893119, 2600822924, 528734635, 1541459225]

/-- The BLAKE3 message-word permutation applied between rounds. -/
def b3perm (m : List Nat) : List Nat :=
  [2, 6, 3, 10, 7, 0, 4, 13, 1, 11, 12, 5, 9, 14, 15, 8].map (fun i => m.getD i 0)

/-- The BLAKE3 quarter-round on state positions `a b c d` with words `x y`. -/
def b3g (v : List Nat) (a b c d x y : Nat) : List Nat :=
  let va := (v.getD a 0 + v.getD b 0 + x) % M32
  let vd := rotr32 (v.getD d 0 ^^^ va) 16
  let vc := (v.getD c 0 + vd) % M32
  let vb := rotr32 (v.getD b 0 ^^^ vc) 12
  let va2 := (va + vb + y) % M32
  let vd2 := rotr32 (vd ^^^ va2) 8
  let vc2 := (vc + vd2) % M32
  let vb2 := rotr32 (vb ^^^ vc2) 7
  ((((v.set a va2).set b vb2).set c vc2).set d vd2)

/-- One BLAKE3 round: four column and four diagonal quarter-rounds. -/
def b3round (v m : List Nat) : List Nat :=
  let g := fun (v : List Nat) (a b c d i j : Nat) => b3g v a b c d (m.getD i 0) (m.getD j 0)
  g (g (g (g (g (g (g (g v 0 4 8 12 0 1) 1 5 9 13 2 3) 2 6 10 14 4 5) 3 7 11 15 6 7)
    0 5 10 15 8 9) 1 6 11 12 10 11) 2 7 8 13 12 13) 3 4 9 14 14 15

/-- The BLAKE3 compression: returns all 16 output words (the first 8 are the
chaining value; all 16 feed the extended root output). -/
def b3compress (cv block : List Nat) (counter blockLen flags : Nat) : List Nat :=
  let v0 := cv.take 8 ++ b3IV.take 4 ++
    [counter % M32, (counter >>> 32) % M32, blockLen, flags]
  let fin := (List.range 7).foldl
    (fun (p : List Nat × List Nat) i =>
      (b3round p.1 p.2, if i < 6 then b3perm p.2 else p.2)) (v0, block)
  (List.range 8).map (fun i => fin.1.getD i 0 ^^^ fin.1.getD (i+8) 0) ++
    (List.range 8).map (fun i => fin.1.getD (i+8) 0 ^^^ cv.getD i 0)

/-- The 16 little-endian words of a 64-byte block (zero padded). -/
def b3words (block : Bytes) : List Nat :=
  (List.range 16).map (fun i => leLane block (4*i) 4)

/-- Compress one ≤1024-byte chunk with chunk counter `t`; `root` is the flag
set (`ROOT` or 0) added on the final block.  Returns all 16 words of the
final compression. -/
def b3chunk (data : Bytes) (t root : Nat) : List Nat :=
  let nb := if data.length = 0 then 1 else (data.length + 63) / 64
  let fin := (List.range nb).foldl (fun (cv : List Nat) i =>
    let block := (data.drop (64*i)).take 64
    let flags := (if i = 0 then 1 else 0) + (if i = nb - 1 then 2 + root else 0)
    let out := b3compress cv (b3words block) t block.length flags
    if i = nb - 1 then out else out.take 8) b3IV
  fin

/-- Largest power of two strictly below `n` (for `n ≥ 2`). -/
def pow2lt (n : Nat) : Nat := 2 ^ Nat.log2 (n - 1)

/-- Merge a tree of chunk chaining values into one non-root chaining value:
the left subtree takes the largest power-of-two number of chunks strictly
below the total.  `fuel` bounds the recursion depth. -/
def b3merge (fuel : Nat) (cvs : List (List Nat)) : List Nat :=
  match fuel, cvs with
  | 0, _ => []
  | _ + 1, [] => []
  | _ + 1, [cv] => cv
  | fuel + 1, cvs =>
    let k := pow2lt cvs.length
    (b3compress b3IV (b3merge fuel (cvs.take k) ++ b3merge fuel (cvs.drop k)) 0 64 4).take 8

/-- The BLAKE3 digest with 64-byte output (`blake3.New(64, nil)`): the 16
words of the root compression, little-endian. -/
def blake3Digest (msg : Bytes) : Bytes :=
  let nc := if msg.length = 0 then 1 else (msg.length + 1023) / 1024
  let out16 :=
    if nc = 1 then b3chunk msg 0 8
    else
      let cvs := (List.range nc).map (fun i => (b3chunk ((msg.drop (1024*i)).take 1024) i 0).take 8)
      let k := pow2lt nc
      b3compress b3IV (b3merge nc (cvs.take k) ++ b3merge nc (cvs.drop k)) 0 64 12
  (out16.map (leBytes 4)).flatten

/-- The BLAKE3 adapter (`blake3Hasher`, whose methods coincide with the
generic body over `blake3.New(64, nil)`). -/
def blake3Hasher : Hasher := hasherOf (pureEngine blake3Digest)

/-! ## The perceptual-hash adapter (`pHasher`) -/

/-- Magic headers of the registered image formats (JPEG, PNG, GIF), which
`image.Decode` uses to auto-detect the format. -/
def imageMagics : List Bytes :=
  [[255, 216, 255], [137, 80, 78, 71, 13, 10, 26, 10], [71, 73, 70, 56]]

/-- Modelled from the spec: the external image-decoding and DCT-fingerprint
pipeline (`image.Decode` composed with `phash.DTC`), which the spec places
out of scope as an external collaborator and which is absent from the
sources.  Format is auto-detected from header bytes, so byte sequences that
do not begin with a registered magic header fail with the decoder's
unknown-format error.  The 64-bit fingerprint of a successfully decoded
image is external mathematics the spec does not define; it is represented
by the one fingerprint the spec records (that of its fixed test image), and
no theorem below depends on the success branch. -/
def imageDecodeDTC (bs : Bytes) : Except GoError Nat :=
  if imageMagics.any (fun m => m.isPrefixOf bs) then .ok 7572531362442505274
  else .error (.decodeError "image: unknown format")

/-- `pHasher.GenHashFromIOReader`: decode the stream as an image (a stream
read error surfaces from the decoder), then the 64-bit DCT fingerprint as
8 little-endian bytes. -/
def pHasherGenIOReader (dec : Bytes → Except GoError Nat) (r : ByteStream) : GenResult :=
  match r.readErr with
  | some msg => (none, some (.ioError msg))
  | none =>
    match dec r.bytes with
    | .error e => (none, some e)
    | .ok fp => (some (leBytes 8 fp), none)

/-- The perceptual-hash adapter (`pHasher`), parameterized by the external
decoder-plus-fingerprint function: both text operations reject their input
outright with `ErrPhashNotSupportedString` and never touch the decoder. -/
def pHasher (dec : Bytes → Except GoError Nat) : Hasher where
  GenHashFromString := fun _ => (none, some .phashNotSupportedString)
  GenHashFromIOReader := pHasherGenIOReader dec
  CmpHashAndString := fun _ _ => some .phashNotSupportedString
  CmpHashAndIOReader := fun hashA r => cmpVia (pHasherGenIOReader dec) hashA r

/-- The perceptual-hash adapter over the modelled standard decoder (the
`&pHasher{}` value the option installs). -/
def pHasherStd : Hasher := pHasher imageDecodeDTC

/-! ## The facade (`Hash`), input dispatch, and the option registry -/

/-- The dynamic type of a value passed to `Generate` / `Compare`: a string,
an `io.Reader`, or anything else (the default arm of the type switch),
carrying its runtime type name as `%T` prints it. -/
inductive HInput where
  | str (s : Bytes)
  | reader (r : ByteStream)
  | other (typeName : String)
deriving DecidableEq, Repr

/-- The facade: holds exactly one active adapter. -/
structure Hash where
  hasher : Hasher

/-- `Hash.Generate`: dispatch on the dynamic type of the input, delegating
to the active adapter; any other input type fails with
`ErrUnsupportedInputType` annotated with the runtime type name. -/
def Hash.Generate (h : Hash) : HInput → GenResult
  | .str s => h.hasher.GenHashFromString s
  | .reader r => h.hasher.GenHashFromIOReader r
  | .other t => (none, some (.unsupportedInputType t))

/-- `Hash.Compare`: the same dispatch for comparison. -/
def Hash.Compare (h : Hash) (hash : Bytes) : HInput → Option GoError
  | .str s => h.hasher.CmpHashAndString hash s
  | .reader r => h.hasher.CmpHashAndIOReader hash r
  | .other t => some (.unsupportedInputType t)

/-- A configuration option (`type Option func(*Hash)`), as a pure state
transformation. -/
def HOption := Hash → Hash

/-- `WithUserDifinedAlgorithm`: install a caller-supplied adapter. -/
def WithUserDifinedAlgorithm (hasher : Hasher) : HOption :=
  fun h => { h with hasher := hasher }

/-- `WithMd5Sum`: set the algorithm to MD5. -/
def WithMd5Sum : HOption := fun h => { h with hasher := md5sumHasher }

/-- `WithSha1sum`: set the algorithm to SHA-1. -/
def WithSha1sum : HOption := fun h => { h with hasher := newSHA1Hasher }

/-- `WithSha256sum`: set the algorithm to SHA-256. -/
def WithSha256sum : HOption := fun h => { h with hasher := newSHA256Hasher }

/-- `WithSha512sum`: set the algorithm to SHA-512. -/
def WithSha512sum : HOption := fun h => { h with hasher := newSHA512Hasher }

/-- `WithPhash`: set the algorithm to the perceptual hash. -/
def WithPhash : HOption := fun h => { h with hasher := pHasherStd }

/-- Modelled from the spec: the option for CRC32.  The options below this
point are named by the spec (one per built-in algorithm) and called by the
tests, but their declarations are missing from the sources; each is
modelled, exactly like the six present ones, as the pure transformation
installing its wired adapter. -/
def WithCRC32 : HOption := fun h => { h with hasher := newCRC32Hasher }

/-- Modelled from the spec: the option for Adler-32. -/
def WithAdler32 : HOption := fun h => { h with hasher := newAdler32Hasher }

/-- Modelled from the spec: the option for FNV-32. -/
def WithFnv32 : HOption := fun h => { h with hasher := newFnv32Hasher }

/-- Modelled from the spec: the option for FNV-32a. -/
def WithFnv32a : HOption := fun h => { h with hasher := newFnv32aHasher }

/-- Modelled from the spec: the option for FNV-64. -/
def WithFnv64 : HOption := fun h => { h with hasher := newFnv64Hasher }

/-- Modelled from the spec: the option for FNV-64a. -/
def WithFnv64a : HOption := fun h => { h with hasher := newFnv64aHasher }

/-- Modelled from the spec: the option for FNV-128. -/
def WithFnv128 : HOption := fun h => { h with hasher := newFnv128Hasher }

/-- Modelled from the spec: the option for FNV-128a. -/
def WithFnv128a : HOption := fun h => { h with hasher := newFnv128aHasher }

/-- Modelled from the spec: the option for xxHash. -/
def WithXXHash : HOption := fun h => { h with hasher := newXXHasher }

/-- Modelled from the spec: the option for MurmurHash3-128. -/
def WithMmh3 : HOption := fun h => { h with hasher := newMmh3Hasher }

/-- Modelled from the spec: the option for Whirlpool. -/
def WithWhirlpool : HOption := fun h => { h with hasher := newWhirlpoolHasher }

/-- Modelled from the spec: the option for BLAKE3. -/
def WithBlake3 : HOption := fun h => { h with hasher := blake3Hasher }

/-- `NewHash`: construct the facade from a default MD5 state, applying the
given options left to right. -/
def NewHash (opts : List HOption) : Hash :=
  opts.foldl (fun h opt => opt h) { hasher := md5sumHasher }

/-- The engine-backed built-in adapters (all except the perceptual one). -/
def builtinEngineHashers : List Hasher :=
  [md5sumHasher, newSHA1Hasher, newSHA256Hasher, newSHA512Hasher,
   newCRC32Hasher, newAdler32Hasher, newFnv32Hasher, newFnv32aHasher,
   newFnv64Hasher, newFnv64aHasher, newFnv128Hasher, newFnv128aHasher,
   newXXHasher, newMmh3Hasher, newWhirlpoolHasher, blake3Hasher]

/-- All built-in adapters. -/
def builtinHashers : List Hasher := builtinEngineHashers ++ [pHasherStd]

/-- The built-in option registry (one option per built-in algorithm). -/
def builtinOptions : List HOption :=
  [WithMd5Sum, WithSha1sum, WithSha256sum, WithSha512sum, WithPhash,
   WithCRC32, WithAdler32, WithFnv32, WithFnv32a, WithFnv64, WithFnv64a,
   WithFnv128, WithFnv128a, WithXXHash, WithMmh3, WithWhirlpool, WithBlake3]

/-- An option the registry recognizes: a built-in one, or the user-supplied
adapter option. -/
def IsRegistryOption (o : HOption) : Prop :=
  o ∈ builtinOptions ∨ ∃ u, o = WithUserDifinedAlgorithm u

/-- One invocation of an adapter operation (used to express freedom from
cross-call state). -/
inductive HasherOp where
  | genStr (s : Bytes)
  | genRdr (r : ByteStream)
  | cmpStr (d s : Bytes)
  | cmpRdr (d : Bytes) (r : ByteStream)
deriving DecidableEq, Repr

/-- The observable result of one adapter operation. -/
inductive HasherRes where
  | gen (res : GenResult)
  | cmp (res : Option GoError)
deriving DecidableEq

/-- Run one operation against an adapter. -/
def Hasher.runOp (a : Hasher) : HasherOp → HasherRes
  | .genStr s => .gen (a.GenHashFromString s)
  | .genRdr r => .gen (a.GenHashFromIOReader r)
  | .cmpStr d s => .cmp (a.CmpHashAndString d s)
  | .cmpRdr d r => .cmp (a.CmpHashAndIOReader d r)

/-- Run a sequence of operations against an adapter, collecting the results.
The Go adapters are stateless values — empty structs or structs holding only
an engine constructor — and every call constructs a fresh engine, which the
embedding reflects: no state threads from one call to the next. -/
def Hasher.runOps (a : Hasher) (ops : List HasherOp) : List HasherRes :=
  ops.map a.runOp

/-! ## Validation of the digest functions against the test vectors of the repository -/

example : md5Digest testBytes =
    [9, 143, 107, 205, 70, 33, 211, 115, 202, 222, 78, 131, 38, 39, 180, 246] := by
  decide
example : sha1Digest testBytes =
    [169, 74, 143, 229, 204, 177, 155, 166, 28, 76, 8, 115, 211, 145, 233, 135,
     152, 47, 187, 211] := by decide
example : sha256Digest testBytes =
    [159, 134, 208, 129, 136, 76, 125, 101, 154, 47, 234, 160, 197, 90, 208, 21,
     163, 191, 79, 27, 43, 11, 130, 44, 209, 93, 108, 21, 176, 240, 10, 8] := by decide
example : sha512Digest testBytes =
    [238, 38, 176, 221, 74, 247, 231, 73, 170, 26, 142, 227, 193, 10, 233, 146,
     63, 97, 137, 128, 119, 46, 71, 63, 136, 25, 165, 212, 148, 14, 13, 178,
     122, 193, 133, 248, 160, 225, 213, 248, 79, 136, 188, 136, 127, 214, 123, 20,
     55, 50, 195, 4, 204, 95, 169, 173, 142, 111, 87, 245, 0, 40, 168, 255] := by decide
example : beBytes 4 (crc32IEEE testBytes) = [216, 127, 126, 12] := by decide
example : beBytes 4 (adler32Sum testBytes) = [4, 93, 1, 193] := by decide
example : beBytes 4 (fnv32Sum testBytes) = [188, 44, 11, 233] := by decide
example : beBytes 4 (fnv32aSum testBytes) = [175, 208, 113, 229] := by decide
example : beBytes 8 (fnv64Sum testBytes) = [140, 9, 63, 126, 159, 204, 191, 105] := by decide
example : beBytes 8 (fnv64aSum testBytes) = [249, 230, 230, 239, 25, 124, 43, 37] := by decide
example : fnv128Digest testBytes =
    [102, 171, 42, 139, 111, 117, 114, 119, 184, 6, 232, 156, 86, 250, 243, 57] := by decide
example : fnv128aDigest testBytes =
    [105, 208, 97, 169, 197, 117, 114, 119, 184, 6, 233, 148, 19, 221, 153, 165] := by decide
example : beBytes 8 (xxh64Sum testBytes) = [79, 220, 202, 93, 219, 103, 129, 57] := by decide
example : mmh3Digest testBytes =
    [157, 225, 189, 116, 204, 40, 125, 172, 130, 77, 189, 249, 49, 130, 18, 154] := by
  decide
set_option maxHeartbeats 2000000 in
example : whirlpoolDigest testBytes = [
    185, 19, 213, 187, 184, 228, 97, 194, 197, 150, 28, 190, 14, 220, 218, 223,
    210, 159, 6, 130, 37, 206, 179, 125, 166, 222, 252, 248, 152, 73, 54, 143,
    140, 108, 46, 182, 164, 196, 172, 117, 119, 93, 3, 42, 14, 207, 223, 232,
    85, 5, 115, 6, 43, 101, 63, 233, 47, 199, 184, 251, 59, 123, 232, 214] := by
  decide
example : blake3Digest testBytes =
    [72, 120, 202, 4, 37, 199, 57, 250, 66, 127, 126, 218, 32, 254, 132, 95,
     107, 46, 70, 186, 95, 226, 161, 77, 245, 177, 227, 47, 80, 96, 50, 21,
     200, 47, 119, 165, 189, 7, 247, 4, 138, 149, 166, 153, 224, 86, 208, 227,
     43, 210, 189, 173, 195, 126, 224, 150, 113, 156, 61, 158, 193, 47, 41, 166] := by
  decide

/-! ## General lemmas about the adapter shapes -/

/-- A successful generation round-trips through the shared compare body. -/
theorem cmpVia_self {α : Type} (gen : α → GenResult) (x : α) (d : Bytes)
    (h : gen x = (some d, none)) : cmpVia gen d x = none := by
  simp [cmpVia, h]

/-- The shared compare body propagates a generation error unchanged. -/
theorem cmpVia_err {α : Type} (gen : α → GenResult) (d : Bytes) (x : α) (err : GoError)
    (h : (gen x).2 = some err) : cmpVia gen d x = some err := by
  unfold cmpVia
  rcases hg : gen x with ⟨p, q⟩
  rw [hg] at h
  simp only at h
  subst h
  rfl

/-- On a successful generation the shared compare body is exact byte-for-byte
equality of the supplied digest with the computed one. -/
theorem cmpVia_ok {α : Type} (gen : α → GenResult) (d : Bytes) (x : α) (dc : Bytes)
    (h : gen x = (some dc, none)) :
    cmpVia gen d x = if d = dc then none else some .hashMismatch := by
  simp [cmpVia, h]

/-- A string generation by the generic adapter either succeeds with the
engine digest or fails with the propagated write error. -/
theorem genFromStringOf_shape (e : EngineSpec) (s : Bytes) :
    genFromStringOf e s = (some (e.digest s), none) ∨
      ∃ m, genFromStringOf e s = (none, some (.ioError m)) := by
  unfold genFromStringOf
  cases e.writeErr s <;> simp

/-- A stream generation by the generic adapter either succeeds with the
engine digest of the stream contents or fails with a propagated error. -/
theorem genFromIOReaderOf_shape (e : EngineSpec) (r : ByteStream) :
    genFromIOReaderOf e r = (some (e.digest r.bytes), none) ∨
      ∃ m, genFromIOReaderOf e r = (none, some (.ioError m)) := by
  unfold genFromIOReaderOf
  cases r.readErr <;> [skip; simp]
  cases e.writeErr r.bytes <;> simp

/-- A stream generation by the perceptual adapter either succeeds with an
8-byte fingerprint or fails with a propagated error. -/
theorem pHasherGenIOReader_shape (dec : Bytes → Except GoError Nat) (r : ByteStream) :
    (∃ fp, pHasherGenIOReader dec r = (some (leBytes 8 fp), none)) ∨
      ∃ err, pHasherGenIOReader dec r = (none, some err) := by
  unfold pHasherGenIOReader
  cases r.readErr <;> [skip; simp]
  cases dec r.bytes <;> simp

/-- Every engine-backed built-in adapter is an instance of the generic
adapter shape. -/
theorem builtinEngine_shape (a : Hasher) (ha : a ∈ builtinEngineHashers) :
    ∃ e, a = hasherOf e := by
  simp only [builtinEngineHashers, List.mem_cons, List.not_mem_nil, or_false] at ha
  rcases ha with rfl|rfl|rfl|rfl|rfl|rfl|rfl|rfl|rfl|rfl|rfl|rfl|rfl|rfl|rfl|rfl
  exacts [⟨pureEngine md5Digest, rfl⟩,
    ⟨pureEngine sha1Digest, rfl⟩,
    ⟨pureEngine sha256Digest, rfl⟩,
    ⟨pureEngine sha512Digest, rfl⟩,
    ⟨pureEngine (fun bs => beBytes 4 (crc32IEEE bs)), rfl⟩,
    ⟨pureEngine (fun bs => beBytes 4 (adler32Sum bs)), rfl⟩,
    ⟨pureEngine (fun bs => beBytes 4 (fnv32Sum bs)), rfl⟩,
    ⟨pureEngine (fun bs => beBytes 4 (fnv32aSum bs)), rfl⟩,
    ⟨pureEngine (fun bs => beBytes 8 (fnv64Sum bs)), rfl⟩,
    ⟨pureEngine (fun bs => beBytes 8 (fnv64aSum bs)), rfl⟩,
    ⟨pureEngine fnv128Digest, rfl⟩,
    ⟨pureEngine fnv128aDigest, rfl⟩,
    ⟨pureEngine (fun bs => beBytes 8 (xxh64Sum bs)), rfl⟩,
    ⟨pureEngine mmh3Digest, rfl⟩,
    ⟨pureEngine whirlpoolDigest, rfl⟩,
    ⟨pureEngine blake3Digest, rfl⟩]

/-- Every built-in adapter is either an instance of the generic engine-backed
shape or the perceptual adapter. -/
theorem builtin_shape (a : Hasher) (ha : a ∈ builtinHashers) :
    (∃ e, a = hasherOf e) ∨ a = pHasher imageDecodeDTC := by
  rw [builtinHashers, List.mem_append] at ha
  rcases ha with ha | ha
  · exact Or.inl (builtinEngine_shape a ha)
  · simp only [List.mem_cons, List.not_mem_nil, or_false] at ha
    exact Or.inr ha

/-- Every recognized configuration option replaces the whole facade state
with a fixed one (it is a constant adapter setter). -/
theorem registry_option_const (o : HOption) (ho : IsRegistryOption o) :
    ∃ a, ∀ h, o h = { hasher := a } := by
  rcases ho with hm | ⟨u, rfl⟩
  · simp only [builtinOptions, List.mem_cons, List.not_mem_nil, or_false] at hm
    rcases hm with rfl|rfl|rfl|rfl|rfl|rfl|rfl|rfl|rfl|rfl|rfl|rfl|rfl|rfl|rfl|rfl|rfl <;>
      exact ⟨_, fun _ => rfl⟩
  · exact ⟨u, fun _ => rfl⟩

/-- A generation result that carries an error carries no digest, provided it
has one of the two shapes the adapters produce. -/
theorem GenResult_nil (p : GenResult)
    (hshape : (∃ d, p = (some d, none)) ∨ ∃ err, p = (none, some err))
    (h : p.2.isSome) : p.1 = none := by
  rcases hshape with ⟨d, rfl⟩ | ⟨err, rfl⟩
  · simp at h
  · rfl

/-- Facade generation over a built-in adapter either succeeds with a digest
and no error, or fails with an error and no digest. -/
theorem builtin_generate_shape (a : Hasher) (ha : a ∈ builtinHashers) (inp : HInput) :
    (∃ d, (Hash.mk a).Generate inp = (some d, none)) ∨
      ∃ err, (Hash.mk a).Generate inp = (none, some err) := by
  rcases builtin_shape a ha with ⟨e, rfl⟩ | rfl <;> rcases inp with s | r | t
  · rcases genFromStringOf_shape e s with h | ⟨m, h⟩
    · exact Or.inl ⟨e.digest s, h⟩
    · exact Or.inr ⟨.ioError m, h⟩
  · rcases genFromIOReaderOf_shape e r with h | ⟨m, h⟩
    · exact Or.inl ⟨e.digest r.bytes, h⟩
    · exact Or.inr ⟨.ioError m, h⟩
  · exact Or.inr ⟨.unsupportedInputType t, rfl⟩
  · exact Or.inr ⟨.phashNotSupportedString, rfl⟩
  · rcases pHasherGenIOReader_shape imageDecodeDTC r with ⟨fp, h⟩ | ⟨err, h⟩
    · exact Or.inl ⟨leBytes 8 fp, h⟩
    · exact Or.inr ⟨err, h⟩
  · exact Or.inr ⟨.unsupportedInputType t, rfl⟩

/-! ## The claims -/

/-- Claim C1: for every built-in adapter and every input supplied as a string
or as a byte-stream, comparing the digest produced by a successful Generate
against the same input succeeds — Compare returns no error. -/
theorem claim1_roundtrip (a : Hasher) (ha : a ∈ builtinHashers) :
    (∀ s d, a.GenHashFromString s = (some d, none) → a.CmpHashAndString d s = none) ∧
    (∀ r d, a.GenHashFromIOReader r = (some d, none) → a.CmpHashAndIOReader d r = none) := by
  rcases builtin_shape a ha with ⟨e, rfl⟩ | rfl
  · exact ⟨fun s d h => cmpVia_self _ s d h, fun r d h => cmpVia_self _ r d h⟩
  · refine ⟨fun s d h => ?_, fun r d h => cmpVia_self _ r d h⟩
    simp [pHasher] at h

/-- Witness for C1: the MD5 adapter on the input "test", supplied both as a
string and as the equivalent byte-stream. -/
theorem claim1_roundtrip_witness :
    md5sumHasher.CmpHashAndString (md5Digest testBytes) testBytes = none ∧
    md5sumHasher.CmpHashAndIOReader (md5Digest testBytes) ⟨testBytes, none⟩ = none :=
  ⟨(claim1_roundtrip md5sumHasher
      (by simp [builtinHashers, builtinEngineHashers])).1 testBytes (md5Digest testBytes) rfl,
   (claim1_roundtrip md5sumHasher
      (by simp [builtinHashers, builtinEngineHashers])).2 ⟨testBytes, none⟩
      (md5Digest testBytes) rfl⟩

/-- Claim C2, counterexample: with the perceptual adapter configured,
generating from the string "test" and from the byte-stream with exactly the
same bytes yield different outcomes — the text path fails with
ErrPhashNotSupportedString while the stream path is handed to the image
decoder and fails with its unknown-format error. -/
theorem claim2_counterexample :
    (NewHash [WithPhash]).Generate (.str testBytes) ≠
      (NewHash [WithPhash]).Generate (.reader ⟨testBytes, none⟩) := by
  decide

/-- Claim C2 (amended): for every built-in adapter other than the perceptual
one, Generate and Compare yield identical digests and outcomes whether the
input is an in-memory string or an error-free byte-stream of the same bytes. -/
theorem claim2_string_stream_agree (a : Hasher) (ha : a ∈ builtinEngineHashers) :
    (∀ s, a.GenHashFromString s = a.GenHashFromIOReader ⟨s, none⟩) ∧
    (∀ d s, a.CmpHashAndString d s = a.CmpHashAndIOReader d ⟨s, none⟩) := by
  obtain ⟨e, rfl⟩ := builtinEngine_shape a ha
  have hg : ∀ s, genFromStringOf e s = genFromIOReaderOf e ⟨s, none⟩ := fun _ => rfl
  refine ⟨hg, fun d s => ?_⟩
  show cmpVia (genFromStringOf e) d s = cmpVia (genFromIOReaderOf e) d ⟨s, none⟩
  unfold cmpVia
  rw [hg s]

/-- Witness for the amended C2: the MD5 adapter agrees on the string "test"
and its equivalent stream, for generation and for comparison. -/
theorem claim2_string_stream_agree_witness :
    md5sumHasher.GenHashFromString testBytes =
      md5sumHasher.GenHashFromIOReader ⟨testBytes, none⟩ ∧
    md5sumHasher.CmpHashAndString [1] testBytes =
      md5sumHasher.CmpHashAndIOReader [1] ⟨testBytes, none⟩ :=
  ⟨(claim2_string_stream_agree md5sumHasher (by simp [builtinEngineHashers])).1 testBytes,
   (claim2_string_stream_agree md5sumHasher (by simp [builtinEngineHashers])).2 [1] testBytes⟩

/-- Claim C3: for every active adapter (built-in or user-defined) and every
input value that is neither a string nor a byte-stream, both Generate and
Compare fail with ErrUnsupportedInputType carrying the rejected runtime type
name and a nil digest; the result is the same whatever the active adapter,
so the adapter is never consulted. -/
theorem claim3_unsupported_input (hh : Hasher) (t : String) (d : Bytes) :
    (Hash.mk hh).Generate (.other t) = (none, some (.unsupportedInputType t)) ∧
    (Hash.mk hh).Compare d (.other t) = some (.unsupportedInputType t) ∧
    (∀ hh2 : Hasher,
      (Hash.mk hh).Generate (.other t) = (Hash.mk hh2).Generate (.other t) ∧
      (Hash.mk hh).Compare d (.other t) = (Hash.mk hh2).Compare d (.other t)) :=
  ⟨rfl, rfl, fun _ => ⟨rfl, rfl⟩⟩

/-- Claim C4: with the perceptual adapter active, every string input makes
both generate and compare fail with ErrPhashNotSupportedString — for every
decoder (so no image decoding is ever attempted on the text path), every
string and every supplied digest, at the adapter and at the facade. -/
theorem claim4_phash_rejects_text (dec : Bytes → Except GoError Nat) (s d : Bytes) :
    (pHasher dec).GenHashFromString s = (none, some .phashNotSupportedString) ∧
    (pHasher dec).CmpHashAndString d s = some .phashNotSupportedString ∧
    (NewHash [WithPhash]).Generate (.str s) = (none, some .phashNotSupportedString) ∧
    (NewHash [WithPhash]).Compare d (.str s) = some .phashNotSupportedString :=
  ⟨rfl, rfl, rfl, rfl⟩

/-- Claim C5: the facade constructed with zero options has the MD5 adapter
active, and its Generate applied to the string "test" succeeds returning
exactly the 16 bytes 098f6bcd4621d373cade4e832627b4f6. -/
theorem claim5_default_md5_test :
    (NewHash []).hasher = md5sumHasher ∧
    (NewHash []).Generate (.str testBytes) =
      (some [9, 143, 107, 205, 70, 33, 211, 115, 202, 222, 78, 131, 38, 39, 180, 246],
       none) :=
  ⟨rfl, by decide⟩

/-- Claim C6: facade construction is the left-to-right fold of the options
over the default MD5 state, each option a pure state transformation; the
adapter set by the last option applied is the active one, and applying the
same option twice yields the same facade as applying it once. -/
theorem claim6_options_compose :
    (∀ opts, NewHash opts = opts.foldl (fun h opt => opt h) { hasher := md5sumHasher }) ∧
    (∀ o1 o2, IsRegistryOption o1 → IsRegistryOption o2 →
      (NewHash [o1, o2]).hasher = (NewHash [o2]).hasher) ∧
    (∀ o, IsRegistryOption o → NewHash [o, o] = NewHash [o]) := by
  refine ⟨fun _ => rfl, fun o1 o2 h1 h2 => ?_, fun o h => ?_⟩
  · obtain ⟨a2, ha2⟩ := registry_option_const o2 h2
    show (o2 (o1 { hasher := md5sumHasher })).hasher = (o2 { hasher := md5sumHasher }).hasher
    rw [ha2, ha2]
  · obtain ⟨a, ha⟩ := registry_option_const o h
    show o (o { hasher := md5sumHasher }) = o { hasher := md5sumHasher }
    simp [ha]

/-- Witness for C6: applying MD5 then SHA-1 leaves SHA-1 active, and
applying SHA-1 twice equals applying it once. -/
theorem claim6_options_compose_witness :
    (NewHash [WithMd5Sum, WithSha1sum]).hasher = (NewHash [WithSha1sum]).hasher ∧
    NewHash [WithSha1sum, WithSha1sum] = NewHash [WithSha1sum] :=
  ⟨claim6_options_compose.2.1 WithMd5Sum WithSha1sum
      (Or.inl (by simp [builtinOptions])) (Or.inl (by simp [builtinOptions])),
   claim6_options_compose.2.2 WithSha1sum (Or.inl (by simp [builtinOptions]))⟩

/-- Claim C7: for every built-in algorithm named by the spec there is a
configuration option that sets that algorithm adapter as the active one,
plus one option installing a caller-supplied adapter of the same contract
(the options beyond the six declared under the sources are modelled from
the spec). -/
theorem claim7_registry_wiring :
    (NewHash [WithMd5Sum]).hasher = md5sumHasher ∧
    (NewHash [WithSha1sum]).hasher = newSHA1Hasher ∧
    (NewHash [WithSha256sum]).hasher = newSHA256Hasher ∧
    (NewHash [WithSha512sum]).hasher = newSHA512Hasher ∧
    (NewHash [WithCRC32]).hasher = newCRC32Hasher ∧
    (NewHash [WithAdler32]).hasher = newAdler32Hasher ∧
    (NewHash [WithFnv32]).hasher = newFnv32Hasher ∧
    (NewHash [WithFnv32a]).hasher = newFnv32aHasher ∧
    (NewHash [WithFnv64]).hasher = newFnv64Hasher ∧
    (NewHash [WithFnv64a]).hasher = newFnv64aHasher ∧
    (NewHash [WithFnv128]).hasher = newFnv128Hasher ∧
    (NewHash [WithFnv128a]).hasher = newFnv128aHasher ∧
    (NewHash [WithXXHash]).hasher = newXXHasher ∧
    (NewHash [WithMmh3]).hasher = newMmh3Hasher ∧
    (NewHash [WithWhirlpool]).hasher = newWhirlpoolHasher ∧
    (NewHash [WithBlake3]).hasher = blake3Hasher ∧
    (NewHash [WithPhash]).hasher = pHasherStd ∧
    (∀ u, (NewHash [WithUserDifinedAlgorithm u]).hasher = u) :=
  ⟨rfl, rfl, rfl, rfl, rfl, rfl, rfl, rfl, rfl, rfl, rfl, rfl, rfl, rfl, rfl, rfl, rfl,
   fun _ => rfl⟩

/-- Claim C8: for every built-in adapter, compare first recomputes the
digest of the input; a failed generation is propagated unchanged (never
turned into ErrHashMismatch), and after a successful generation compare
fails with ErrHashMismatch exactly when the computed digest differs from
the supplied one as a byte sequence and succeeds exactly when they are
byte-for-byte identical. -/
theorem claim8_compare_semantics (a : Hasher) (ha : a ∈ builtinHashers) (d : Bytes) :
    (∀ s err, (a.GenHashFromString s).2 = some err → a.CmpHashAndString d s = some err) ∧
    (∀ s dc, a.GenHashFromString s = (some dc, none) →
      (a.CmpHashAndString d s = none ↔ d = dc) ∧
      (a.CmpHashAndString d s = some .hashMismatch ↔ d ≠ dc)) ∧
    (∀ r err, (a.GenHashFromIOReader r).2 = some err → a.CmpHashAndIOReader d r = some err) ∧
    (∀ r dc, a.GenHashFromIOReader r = (some dc, none) →
      (a.CmpHashAndIOReader d r = none ↔ d = dc) ∧
      (a.CmpHashAndIOReader d r = some .hashMismatch ↔ d ≠ dc)) := by
  have iffs : ∀ {α : Type} (gen : α → GenResult) (x : α) (dc : Bytes),
      gen x = (some dc, none) →
      (cmpVia gen d x = none ↔ d = dc) ∧
      (cmpVia gen d x = some .hashMismatch ↔ d ≠ dc) := by
    intro α gen x dc h
    rw [cmpVia_ok gen d x dc h]
    by_cases hd : d = dc <;> simp [hd]
  rcases builtin_shape a ha with ⟨e, rfl⟩ | rfl
  · exact ⟨fun s err h => cmpVia_err _ d s err h,
      fun s dc h => iffs (genFromStringOf e) s dc h,
      fun r err h => cmpVia_err _ d r err h,
      fun r dc h => iffs (genFromIOReaderOf e) r dc h⟩
  · refine ⟨fun s err h => ?_, fun s dc h => ?_,
      fun r err h => cmpVia_err _ d r err h,
      fun r dc h => iffs (pHasherGenIOReader imageDecodeDTC) r dc h⟩
    · simp only [pHasher] at h ⊢
      exact congrArg some (Option.some.inj h)
    · simp [pHasher] at h

/-- Witness for C8: the MD5 adapter on "test" — the matching digest
succeeds, a mismatching digest fails with ErrHashMismatch, and the
perceptual adapter propagates its text-rejection error through compare. -/
theorem claim8_compare_semantics_witness :
    md5sumHasher.CmpHashAndString [1] testBytes = some .hashMismatch ∧
    md5sumHasher.CmpHashAndString (md5Digest testBytes) testBytes = none :=
  ⟨(((claim8_compare_semantics md5sumHasher
        (by simp [builtinHashers, builtinEngineHashers]) [1]).2.1 testBytes
        (md5Digest testBytes) rfl).2).mpr (by decide),
   (((claim8_compare_semantics md5sumHasher
        (by simp [builtinHashers, builtinEngineHashers]) (md5Digest testBytes)).2.1 testBytes
        (md5Digest testBytes) rfl).1).mpr rfl⟩

/-- Claim C9: built-in adapters are referentially transparent across calls —
running an operation after any history of operations yields exactly the
result of that operation alone, unaffected by the history.  (The Go adapters
are stateless values and every call constructs a fresh engine; the embedding
reflects this, and the theorem states the resulting history-independence
over explicit operation sequences.) -/
theorem claim9_referential_transparency (a : Hasher) (ha : a ∈ builtinHashers)
    (hist1 hist2 : List HasherOp) (op : HasherOp) :
    (a.runOps (hist1 ++ [op])).getLast? = (a.runOps (hist2 ++ [op])).getLast? ∧
    (a.runOps (hist1 ++ [op])).getLast? = some (a.runOp op) := by
  have key : ∀ h : List HasherOp, (a.runOps (h ++ [op])).getLast? = some (a.runOp op) := by
    intro h
    simp [Hasher.runOps]
  exact ⟨(key hist1).trans (key hist2).symm, key hist1⟩

/-- Witness for C9: the MD5 adapter returns the same digest of "test" after
an unrelated earlier generation as it does with no history. -/
theorem claim9_referential_transparency_witness :
    (md5sumHasher.runOps ([HasherOp.genStr [97]] ++ [HasherOp.genStr testBytes])).getLast? =
      (md5sumHasher.runOps ([] ++ [HasherOp.genStr testBytes])).getLast? :=
  (claim9_referential_transparency md5sumHasher
    (by simp [builtinHashers, builtinEngineHashers])
    [HasherOp.genStr [97]] [] (HasherOp.genStr testBytes)).1

/-- Claim C10: whenever facade generation over a built-in adapter returns an
error — unsupported input type, write failure, stream read failure, image
decode failure, or text given to the perceptual adapter — the returned
digest is nil. -/
theorem claim10_nil_digest_on_error (a : Hasher) (ha : a ∈ builtinHashers) (inp : HInput)
    (h : ((Hash.mk a).Generate inp).2.isSome) :
    ((Hash.mk a).Generate inp).1 = none :=
  GenResult_nil _ (builtin_generate_shape a ha inp) h

/-- Witness for C10: the perceptual adapter rejecting the string "test"
returns a nil digest alongside its error. -/
theorem claim10_nil_digest_on_error_witness :
    ((Hash.mk pHasherStd).Generate (.str testBytes)).1 = none :=
  claim10_nil_digest_on_error pHasherStd
    (by simp [builtinHashers]) (.str testBytes) (by decide)
